import Mathlib

/-!
Shallow embedding of the TodoApp frontend (React + TypeScript) for
verification of its specification.

Sources embedded:
- `frontend/src/types` (interfaces Task, TaskSubstep, TaskNote, FolderType,
  DiaryEntry, NewTask, NewFolder);
- `frontend/src/utils` (the `api` fetch client, base URL
  http://localhost:8000);
- `CalendarView` (`getDaysInMonth`, `getTasksForDate`, day-cell rendering);
- `TaskCard` (substep counters and progress bar);
- `App.tsx` (`loadTasks`, `loadFolders`, `loadDiaryEntries`,
  `handleCreateTask`, `handleCreateFolder`, `handleCreateDiaryEntry`,
  `toggleTaskStatus`, `toggleTaskExpansion`).

Conventions: TypeScript `number` ids are modelled as `Int` (JavaScript
truthiness of a number is `≠ 0`); optional fields are `Option`; a fetch
that may reject is modelled by an explicit `Except Unit` outcome, and the
network itself by an oracle `Request → Json`.  JavaScript `Date` values
produced by `new Date(year, month, day)` are modelled as civil dates with
0-based months, and `toISOString().split('T')[0]` as the padded
`YYYY-MM-DD` rendering of the civil date (the embedding fixes the UTC
timezone, so local midnight and the ISO instant name the same civil day).
-/

namespace TodoApp

/-- Substep of a task, from `frontend/src/types` (interface `TaskSubstep`). -/
structure TaskSubstep where
  id : Int
  title : String
  description : Option String
  is_completed : Bool
  order_index : Int
  created_at : String
deriving DecidableEq, Repr

/-- Note attached to a task, from `frontend/src/types` (interface `TaskNote`). -/
structure TaskNote where
  id : Int
  content : String
  created_at : String
deriving DecidableEq, Repr

/-- Task record, from `frontend/src/types` (interface `Task`). -/
structure Task where
  id : Int
  title : String
  description : Option String
  priority : Int
  status : String
  due_date : Option String
  is_calendar_event : Bool
  created_at : String
  substeps : Option (List TaskSubstep)
  notes : Option (List TaskNote)
deriving DecidableEq, Repr

/-- Folder record, from `frontend/src/types` (interface `FolderType`). -/
structure FolderType where
  id : Int
  name : String
  color : String
  parent_folder_id : Option Int
  created_at : String
deriving DecidableEq, Repr

/-- Diary entry record, from `frontend/src/types` (interface `DiaryEntry`). -/
structure DiaryEntry where
  id : Int
  entry_date : String
  title : Option String
  content : String
  mood : Option Int
  weather : Option String
  created_at : String
deriving DecidableEq, Repr

/-- New-task form state, from `frontend/src/types` (interface `NewTask`). -/
structure NewTask where
  title : String
  description : String
  priority : Int
  due_date : String
  is_calendar_event : Bool
deriving DecidableEq, Repr

/-- New-folder form state, from `frontend/src/types` (interface `NewFolder`). -/
structure NewFolder where
  name : String
  color : String
deriving DecidableEq, Repr

/-- JSON values, the payloads exchanged with the backend.  Numbers are
modelled as integers (all numeric payload fields in this app are ids,
priorities and moods). -/
inductive Json where
  | null : Json
  | bool : Bool → Json
  | num : Int → Json
  | str : String → Json
  | arr : List Json → Json
  | obj : List (String × Json) → Json

/-- HTTP methods used by the `api` client. -/
inductive Method where
  | GET
  | POST
  | PUT
deriving DecidableEq, Repr

/-- An HTTP request as issued by `fetch` in `frontend/src/utils`:
method, URL, and the JSON body for POST/PUT (the body passed to
`JSON.stringify`). -/
structure Request where
  method : Method
  url : String
  body : Option Json

/-- Base URL of the backend, from `frontend/src/utils`
(`const API_BASE_URL = 'http://localhost:8000'`). -/
def API_BASE_URL : String := "http://localhost:8000"

/-- Request of `api.healthCheck`: `fetch(API_BASE_URL + '/health')`. -/
def healthCheckReq : Request :=
  { method := Method.GET, url := API_BASE_URL ++ "/health", body := none }

/-- The `api.healthCheck` operation: one GET and the parsed JSON body
returned unmodified.  `net` is the network oracle (fetch + `response.json()`). -/
def healthCheck (net : Request → Json) : List Request × Json :=
  ([healthCheckReq], net healthCheckReq)

/-- URL built by `api.getTasks`.  The source branches on JavaScript
truthiness of `folderId : number | null`, which is false for `null` and
for `0`:
`folderId ? API_BASE_URL + '/api/tasks?folder_id=' + folderId : API_BASE_URL + '/api/tasks'`. -/
def getTasksUrl (folderId : Option Int) : String :=
  match folderId with
  | some i =>
    if i ≠ 0 then API_BASE_URL ++ "/api/tasks?folder_id=" ++ toString i
    else API_BASE_URL ++ "/api/tasks"
  | none => API_BASE_URL ++ "/api/tasks"

/-- Request of `api.getTasks`. -/
def getTasksReq (folderId : Option Int) : Request :=
  { method := Method.GET, url := getTasksUrl folderId, body := none }

/-- The `api.getTasks` operation. -/
def getTasks (folderId : Option Int) (net : Request → Json) : List Request × Json :=
  ([getTasksReq folderId], net (getTasksReq folderId))

/-- Request of `api.createTask`: POST to `/api/tasks` with the task data
as JSON body. -/
def createTaskReq (taskData : Json) : Request :=
  { method := Method.POST, url := API_BASE_URL ++ "/api/tasks", body := some taskData }

/-- The `api.createTask` operation. -/
def createTask (taskData : Json) (net : Request → Json) : List Request × Json :=
  ([createTaskReq taskData], net (createTaskReq taskData))

/-- Request of `api.updateTask`: PUT to `/api/tasks/{taskId}` (template
literal `API_BASE_URL + '/api/tasks/' + taskId`) with the updates as body. -/
def updateTaskReq (taskId : Int) (updates : Json) : Request :=
  { method := Method.PUT, url := API_BASE_URL ++ "/api/tasks/" ++ toString taskId,
    body := some updates }

/-- The `api.updateTask` operation. -/
def updateTask (taskId : Int) (updates : Json) (net : Request → Json) :
    List Request × Json :=
  ([updateTaskReq taskId updates], net (updateTaskReq taskId updates))

/-- Request of `api.getFolders`. -/
def getFoldersReq : Request :=
  { method := Method.GET, url := API_BASE_URL ++ "/api/folders", body := none }

/-- The `api.getFolders` operation. -/
def getFolders (net : Request → Json) : List Request × Json :=
  ([getFoldersReq], net getFoldersReq)

/-- Request of `api.createFolder`. -/
def createFolderReq (folderData : Json) : Request :=
  { method := Method.POST, url := API_BASE_URL ++ "/api/folders", body := some folderData }

/-- The `api.createFolder` operation. -/
def createFolder (folderData : Json) (net : Request → Json) : List Request × Json :=
  ([createFolderReq folderData], net (createFolderReq folderData))

/-- Query parameters accumulated by `api.getDiaryEntries`.  The source
appends `entry_date` and `folder_id` to a `URLSearchParams` only when
truthy (a nonempty string, a nonzero number).  Percent-encoding is
elided: the values are ISO dates and decimal numbers, which
`URLSearchParams` leaves unchanged. -/
def diaryQueryParams (entryDate : Option String) (folderId : Option Int) :
    List (String × String) :=
  (match entryDate with
   | some d => if d ≠ "" then [("entry_date", d)] else []
   | none => []) ++
  (match folderId with
   | some i => if i ≠ 0 then [("folder_id", toString i)] else []
   | none => [])

/-- URL built by `api.getDiaryEntries` from the accumulated parameters:
`if (params.toString()) url += '?' + params.toString()`. -/
def getDiaryEntriesUrl (entryDate : Option String) (folderId : Option Int) : String :=
  match diaryQueryParams entryDate folderId with
  | [] => API_BASE_URL ++ "/api/diary"
  | p :: rest =>
    API_BASE_URL ++ "/api/diary?" ++
      String.intercalate "&" ((p :: rest).map fun q => q.1 ++ "=" ++ q.2)

/-- Request of `api.getDiaryEntries`. -/
def getDiaryEntriesReq (entryDate : Option String) (folderId : Option Int) : Request :=
  { method := Method.GET, url := getDiaryEntriesUrl entryDate folderId, body := none }

/-- The `api.getDiaryEntries` operation. -/
def getDiaryEntries (entryDate : Option String) (folderId : Option Int)
    (net : Request → Json) : List Request × Json :=
  ([getDiaryEntriesReq entryDate folderId], net (getDiaryEntriesReq entryDate folderId))

/-- Request of `api.createDiaryEntry`. -/
def createDiaryEntryReq (entryData : Json) : Request :=
  { method := Method.POST, url := API_BASE_URL ++ "/api/diary", body := some entryData }

/-- The `api.createDiaryEntry` operation. -/
def createDiaryEntry (entryData : Json) (net : Request → Json) : List Request × Json :=
  ([createDiaryEntryReq entryData], net (createDiaryEntryReq entryData))

/-- A civil date as produced by `new Date(year, month, day)` in
`CalendarView`: `month` is 0-based (as `Date.getMonth` returns it) and
`day` is 1-based. -/
structure CivilDate where
  year : Int
  month : Nat
  day : Nat
deriving DecidableEq, Repr

/-- Gregorian leap-year rule, the calendar JavaScript `Date` implements.
`%` on `Int` is euclidean, so the test is right for negative years too. -/
def isLeapYear (y : Int) : Bool :=
  (y % 4 == 0 && y % 100 != 0) || y % 400 == 0

/-- Number of days in 0-based month `m` of year `y`: the value of
`new Date(year, month + 1, 0).getDate()` in `getDaysInMonth`. -/
def daysInMonthOf (y : Int) (m : Nat) : Nat :=
  if m = 1 then (if isLeapYear y then 29 else 28)
  else if m = 3 ∨ m = 5 ∨ m = 8 ∨ m = 10 then 30
  else 31

/-- Weekday (0 = Sunday … 6 = Saturday) of the civil date
(year `y`, 0-based month `m`, day `d`): the value of
`new Date(y, m, d).getDay()`.  Computed by Zeller's congruence for the
Gregorian calendar, shifted so that Sunday is 0. -/
def jsGetDay (y : Int) (m : Nat) (d : Nat) : Nat :=
  let mz : Int := if m < 2 then (m : Int) + 13 else (m : Int) + 1
  let yz : Int := if m < 2 then y - 1 else y
  let k : Int := Int.emod yz 100
  let j : Int := Int.ediv yz 100
  let h : Int :=
    Int.emod ((d : Int) + Int.ediv (13 * (mz + 1)) 5 + k + Int.ediv k 4 +
      Int.ediv j 4 + 5 * j) 7
  (Int.emod (h + 6) 7).toNat

/-- The date grid of `CalendarView.getDaysInMonth` for the viewed month:
first a `null` cell for each weekday slot before the 1st
(`for (let i = 0; i < startingDayOfWeek; i++) days.push(null)`), then one
`Date` cell per day of the month
(`for (let day = 1; day <= daysInMonth; day++) days.push(new Date(year, month, day))`). -/
def getDaysInMonth (year : Int) (month : Nat) : List (Option CivilDate) :=
  let daysInMonth := daysInMonthOf year month
  let startingDayOfWeek := jsGetDay year month 1
  List.replicate startingDayOfWeek (none : Option CivilDate) ++
    (List.range daysInMonth).map (fun i => some ⟨year, month, i + 1⟩)

/-- Decimal rendering padded to two digits, as `toISOString` renders
months and days. -/
def pad2 (n : Nat) : String :=
  if n < 10 then "0" ++ toString n else toString n

/-- Year rendering padded to four digits, as `toISOString` renders years
in 0–9999. -/
def pad4 (y : Int) : String :=
  if 0 ≤ y ∧ y < 10 then "000" ++ toString y
  else if 0 ≤ y ∧ y < 100 then "00" ++ toString y
  else if 0 ≤ y ∧ y < 1000 then "0" ++ toString y
  else toString y

/-- The `YYYY-MM-DD` string `date.toISOString().split('T')[0]` computes
for a cell date in `getTasksForDate` (months are rendered 1-based). -/
def isoDateString (d : CivilDate) : String :=
  pad4 d.year ++ "-" ++ pad2 (d.month + 1) ++ "-" ++ pad2 d.day

/-- `CalendarView.getTasksForDate`: `if (!date) return []`, then
`tasks.filter(task => task.due_date && task.due_date.startsWith(dateStr))`.
JavaScript truthiness of `task.due_date : string | undefined` is false
for `undefined` and for the empty string. -/
def getTasksForDate (tasks : List Task) (date : Option CivilDate) : List Task :=
  match date with
  | none => []
  | some d =>
    let dateStr := isoDateString d
    tasks.filter fun task =>
      match task.due_date with
      | none => false
      | some s => s != "" && s.startsWith dateStr

/-- The task labels a day cell renders: `tasksForDay.slice(0, 2)`. -/
def cellTaskLabels (tasksForDay : List Task) : List Task :=
  tasksForDay.take 2

/-- The overflow indicator of a day cell: rendered only when
`tasksForDay.length > 2`, reading `+{tasksForDay.length - 2} more`. -/
def cellOverflowLabel (tasksForDay : List Task) : Option String :=
  if tasksForDay.length > 2 then
    some ("+" ++ toString (tasksForDay.length - 2) ++ " more")
  else none

/-- `TaskCard`'s `completedSubsteps`:
`task.substeps?.filter(s => s.is_completed).length || 0` (the `|| 0`
covers the `undefined` produced by optional chaining when the task has no
substeps list). -/
def completedSubsteps (task : Task) : Nat :=
  match task.substeps with
  | none => 0
  | some l => (l.filter fun s => s.is_completed).length

/-- `TaskCard`'s `totalSubsteps`: `task.substeps?.length || 0`. -/
def totalSubsteps (task : Task) : Nat :=
  match task.substeps with
  | none => 0
  | some l => l.length

/-- The progress-bar width fraction of `TaskCard`.  The surrounding JSX
renders the bar only under `totalSubsteps > 0`, and the width style is
`(completedSubsteps / totalSubsteps) * 100` percent; the fraction is
modelled exactly over `ℚ`. -/
def progressWidthFraction (task : Task) : Option ℚ :=
  if totalSubsteps task > 0 then
    some ((completedSubsteps task : ℚ) / (totalSubsteps task : ℚ))
  else none

/-- The value of `selectedFolder?.id || null` in `App.tsx`: `null` when no
folder is selected, and also when the selected folder's id is the falsy
number `0`. -/
def selectedFolderIdOrNull (selectedFolder : Option FolderType) : Option Int :=
  match selectedFolder with
  | none => none
  | some f => if f.id ≠ 0 then some f.id else none

/-- The request `loadTasks` issues:
`api.getTasks(selectedFolder?.id || null)`. -/
def loadTasksRequest (selectedFolder : Option FolderType) : Request :=
  getTasksReq (selectedFolderIdOrNull selectedFolder)

/-- JSON value sent for a `number | null` field. -/
def jsonOfFolderId (folderId : Option Int) : Json :=
  match folderId with
  | some i => Json.num i
  | none => Json.null

/-- The body `handleCreateDiaryEntry` sends: entry_date is today's ISO
date (`new Date().toISOString().split('T')[0]`, passed in as `todayIso`),
title and weather are empty strings, content is the caller's text, and
folder_id is `selectedFolder?.id || null`.  The `mood: undefined` field is
dropped by `JSON.stringify`, so no `mood` key appears in the body. -/
def handleCreateDiaryEntryBody (selectedFolder : Option FolderType)
    (todayIso : String) (content : String) : Json :=
  Json.obj [
    ("entry_date", Json.str todayIso),
    ("title", Json.str ""),
    ("content", Json.str content),
    ("weather", Json.str ""),
    ("folder_id", jsonOfFolderId (selectedFolderIdOrNull selectedFolder))]

/-- The request `handleCreateDiaryEntry` issues:
`api.createDiaryEntry(entryData)`. -/
def handleCreateDiaryEntryRequest (selectedFolder : Option FolderType)
    (todayIso : String) (content : String) : Request :=
  createDiaryEntryReq (handleCreateDiaryEntryBody selectedFolder todayIso content)

/-- Field lookup in a JSON object. -/
def Json.lookupField (j : Json) (key : String) : Option Json :=
  match j with
  | Json.obj fields => fields.lookup key
  | _ => none

/-- The component-local state of `TodoApp` in `App.tsx` that the data
operations touch: the three lists, the loading flag, the two modal
visibility flags, the two forms, and the expanded-tasks set. -/
structure AppState where
  tasks : List Task
  folders : List FolderType
  diaryEntries : List DiaryEntry
  loading : Bool
  showNewTaskModal : Bool
  showNewFolderModal : Bool
  newTask : NewTask
  newFolder : NewFolder
  expandedTasks : Finset Int
deriving DecidableEq

/-- Net effect of one run of `loadTasks` on the component state, given
the fetch outcome: `setLoading(true)`, then on success `setTasks(data)`,
on error only `console.error`; the `finally` block runs
`setLoading(false)` on both paths. -/
def loadTasksRun (s : AppState) (result : Except Unit (List Task)) : AppState :=
  match result with
  | Except.ok tasksData => { s with tasks := tasksData, loading := false }
  | Except.error _ => { s with loading := false }

/-- Net effect of one run of `loadFolders`: on success
`setFolders(data)`, on error only `console.error` (no loading flag). -/
def loadFoldersRun (s : AppState) (result : Except Unit (List FolderType)) : AppState :=
  match result with
  | Except.ok foldersData => { s with folders := foldersData }
  | Except.error _ => s

/-- Net effect of one run of `loadDiaryEntries`: like `loadTasks`, with
`setDiaryEntries` on success and the loading flag cleared in `finally`. -/
def loadDiaryEntriesRun (s : AppState) (result : Except Unit (List DiaryEntry)) :
    AppState :=
  match result with
  | Except.ok entriesData => { s with diaryEntries := entriesData, loading := false }
  | Except.error _ => { s with loading := false }

/-- The blank new-task form `handleCreateTask` resets to on success. -/
def emptyNewTask : NewTask :=
  { title := "", description := "", priority := 1, due_date := "",
    is_calendar_event := false }

/-- Net effect of `handleCreateTask` on the state, given the outcome of
`api.createTask`: on success the form is reset and the modal closed (the
subsequent `loadTasks()` is a separate fetch, modelled by `loadTasksRun`);
on error only `console.error`. -/
def handleCreateTaskRun (s : AppState) (result : Except Unit Json) : AppState :=
  match result with
  | Except.ok _ => { s with newTask := emptyNewTask, showNewTaskModal := false }
  | Except.error _ => s

/-- The blank new-folder form `handleCreateFolder` resets to on success. -/
def emptyNewFolder : NewFolder :=
  { name := "", color := "#3B82F6" }

/-- Net effect of `handleCreateFolder`, given the outcome of
`api.createFolder`: on success the form is reset and the modal closed; on
error only `console.error`. -/
def handleCreateFolderRun (s : AppState) (result : Except Unit Json) : AppState :=
  match result with
  | Except.ok _ => { s with newFolder := emptyNewFolder, showNewFolderModal := false }
  | Except.error _ => s

/-- Net effect of `handleCreateDiaryEntry`, given the outcome of
`api.createDiaryEntry`: on success no direct state change (only the
separate `loadDiaryEntries()` fetch follows); on error only
`console.error`. -/
def handleCreateDiaryEntryRun (s : AppState) (result : Except Unit Json) : AppState :=
  match result with
  | Except.ok _ => s
  | Except.error _ => s

/-- The status flip `toggleTaskStatus` computes:
`task.status === 'completed' ? 'pending' : 'completed'`. -/
def flipStatus (status : String) : String :=
  if status == "completed" then "pending" else "completed"

/-- Net effect of `toggleTaskStatus`, given the outcome of
`api.updateTask`: on success no direct state change (the `loadTasks()`
reload is a separate fetch); on error, after `console.error`, the catch
block updates the list locally:
`setTasks(prev => prev.map(t => t.id === task.id ? { ...t, status: ... } : t))`. -/
def toggleTaskStatusRun (s : AppState) (task : Task) (result : Except Unit Json) :
    AppState :=
  match result with
  | Except.ok _ => s
  | Except.error _ =>
    { s with tasks := s.tasks.map fun t =>
        if t.id == task.id then { t with status := flipStatus task.status } else t }

/-- `App.tsx`'s `toggleTaskExpansion`: copy the set, then delete the id if
present, insert it otherwise. -/
def toggleTaskExpansion (expandedTasks : Finset Int) (taskId : Int) : Finset Int :=
  if taskId ∈ expandedTasks then expandedTasks.erase taskId
  else insert taskId expandedTasks

/-! Concrete values used by witnesses and counterexamples. -/

/-- A concrete pending task without substeps. -/
def cTask : Task :=
  { id := 1, title := "write report", description := none, priority := 1,
    status := "pending", due_date := none, is_calendar_event := false,
    created_at := "2026-10-01", substeps := none, notes := none }

/-- A concrete completed substep. -/
def cSubDone : TaskSubstep :=
  { id := 10, title := "outline", description := none, is_completed := true,
    order_index := 0, created_at := "2026-10-01" }

/-- A concrete open substep. -/
def cSubOpen : TaskSubstep :=
  { id := 11, title := "draft", description := none, is_completed := false,
    order_index := 1, created_at := "2026-10-01" }

/-- A concrete task with one completed substep out of two. -/
def cTaskSub : Task :=
  { cTask with id := 2, substeps := some [cSubDone, cSubOpen] }

/-- A concrete task due on 2026-10-11. -/
def cTaskDue : Task :=
  { cTask with id := 3, due_date := some "2026-10-11T09:00:00" }

/-- A concrete folder whose id is the falsy number 0. -/
def cFolder0 : FolderType :=
  { id := 0, name := "Inbox", color := "#000000", parent_folder_id := none,
    created_at := "2026-10-01" }

/-- A concrete folder with a nonzero id. -/
def cFolder5 : FolderType :=
  { id := 5, name := "Work", color := "#3B82F6", parent_folder_id := none,
    created_at := "2026-10-01" }

/-- A concrete component state holding one pending task. -/
def cState : AppState :=
  { tasks := [cTask], folders := [cFolder5], diaryEntries := [],
    loading := false, showNewTaskModal := false, showNewFolderModal := false,
    newTask := emptyNewTask, newFolder := emptyNewFolder, expandedTasks := ∅ }

/-! Theorems for the claims. -/

/-- C6: for every task rendered by `TaskCard`, `completedSubsteps` is
exactly the number of the task's substeps whose `is_completed` flag is
true, `totalSubsteps` is exactly the length of the task's substeps list,
and both are 0 when the task has no substeps list. -/
theorem substep_progress_counts (task : Task) :
    completedSubsteps task =
      ((task.substeps.getD []).countP fun s => s.is_completed) ∧
    totalSubsteps task = (task.substeps.getD []).length ∧
    (task.substeps = none →
      completedSubsteps task = 0 ∧ totalSubsteps task = 0) := by
  refine ⟨?_, ?_, ?_⟩ <;>
    cases h : task.substeps <;>
      simp [completedSubsteps, totalSubsteps, h, List.countP_eq_length_filter]

/-- C6 witness: the counts evaluate to 0 on a concrete task without a
substeps list. -/
theorem substep_progress_counts_witness :
    completedSubsteps cTask = 0 ∧ totalSubsteps cTask = 0 :=
  (substep_progress_counts cTask).2.2 rfl

/-- C8: `toggleTaskExpansion` is a self-inverse update of the
expanded-tasks set that touches only its argument: applying it twice with
the same id yields the original set, one application flips the membership
of that id, and the membership of every other id is unchanged. -/
theorem toggleTaskExpansion_toggle (s : Finset Int) (taskId : Int) :
    toggleTaskExpansion (toggleTaskExpansion s taskId) taskId = s ∧
    (taskId ∈ toggleTaskExpansion s taskId ↔ taskId ∉ s) ∧
    (∀ x : Int, x ≠ taskId →
      (x ∈ toggleTaskExpansion s taskId ↔ x ∈ s)) := by
  unfold toggleTaskExpansion
  by_cases h : taskId ∈ s
  · refine ⟨?_, ?_, ?_⟩
    · simp [h, Finset.mem_erase, Finset.insert_erase h]
    · simp [h, Finset.mem_erase]
    · intro x hx
      simp [h, Finset.mem_erase, hx]
  · refine ⟨?_, ?_, ?_⟩
    · simp [h, Finset.mem_insert, Finset.erase_insert h]
    · simp [h, Finset.mem_insert]
    · intro x hx
      simp [h, Finset.mem_insert, hx]

/-- C8 witness: toggling id 3 on the concrete set `{1, 2}` leaves the
membership of 1 unchanged. -/
theorem toggleTaskExpansion_toggle_witness :
    (1 : Int) ∈ toggleTaskExpansion {1, 2} 3 ↔ (1 : Int) ∈ ({1, 2} : Finset Int) :=
  (toggleTaskExpansion_toggle {1, 2} 3).2.2 1 (by decide)

/-- C9: the substep progress-bar division is guarded: the width fraction
is produced only when `totalSubsteps > 0` (so division by zero is
unreachable), `completedSubsteps` never exceeds `totalSubsteps`, and any
produced fraction lies between 0 and 1. -/
theorem progress_fraction_bounds (task : Task) :
    completedSubsteps task ≤ totalSubsteps task ∧
    (totalSubsteps task = 0 → progressWidthFraction task = none) ∧
    (∀ q : ℚ, progressWidthFraction task = some q → 0 ≤ q ∧ q ≤ 1) := by
  have hle : completedSubsteps task ≤ totalSubsteps task := by
    cases h : task.substeps with
    | none => simp [completedSubsteps, totalSubsteps, h]
    | some l =>
      simpa [completedSubsteps, totalSubsteps, h] using
        List.length_filter_le (fun s => s.is_completed) l
  refine ⟨hle, ?_, ?_⟩
  · intro h0
    simp [progressWidthFraction, h0]
  · intro q hq
    unfold progressWidthFraction at hq
    by_cases hpos : totalSubsteps task > 0
    · rw [if_pos hpos] at hq
      have hq' : q = (completedSubsteps task : ℚ) / (totalSubsteps task : ℚ) :=
        (Option.some.injEq _ _ ▸ hq).symm
      subst hq'
      constructor
      · positivity
      · rw [div_le_one (by exact_mod_cast hpos)]
        exact_mod_cast hle
    · rw [if_neg hpos] at hq
      exact absurd hq (by simp)

/-- C9 witness: on a concrete task with one of two substeps completed the
fraction is 1/2, which the theorem bounds between 0 and 1. -/
theorem progress_fraction_bounds_witness :
    0 ≤ (1 / 2 : ℚ) ∧ (1 / 2 : ℚ) ≤ 1 :=
  (progress_fraction_bounds cTaskSub).2.2 (1 / 2) (by
    norm_num [progressWidthFraction, completedSubsteps, totalSubsteps,
      cTaskSub, cTask, cSubDone, cSubOpen])

/-- C10: a day cell renders at most two task labels: exactly the first
`min n 2` tasks of the filtered list are shown, and when `n > 2` an
overflow indicator reading `+(n-2) more` is shown instead of the
remaining tasks. -/
theorem calendar_cell_two_labels (tasksForDay : List Task) :
    (cellTaskLabels tasksForDay).length = min tasksForDay.length 2 ∧
    (∀ i : Nat, i < min tasksForDay.length 2 →
      (cellTaskLabels tasksForDay)[i]? = tasksForDay[i]?) ∧
    (tasksForDay.length > 2 →
      cellOverflowLabel tasksForDay =
        some ("+" ++ toString (tasksForDay.length - 2) ++ " more")) ∧
    (tasksForDay.length ≤ 2 → cellOverflowLabel tasksForDay = none) := by
  refine ⟨?_, ?_, ?_, ?_⟩
  · simp [cellTaskLabels, Nat.min_comm]
  · intro i hi
    exact List.getElem?_take_of_lt (by omega)
  · intro h
    simp [cellOverflowLabel, h]
  · intro h
    simp [cellOverflowLabel]
    omega

/-- C10 witness: on a concrete three-task list the cell shows the first
two tasks and the indicator `+1 more`. -/
theorem calendar_cell_two_labels_witness :
    (cellTaskLabels [cTask, cTaskSub, cTaskDue])[0]? = some cTask ∧
    cellOverflowLabel [cTask, cTaskSub, cTaskDue] = some "+1 more" := by
  have h := calendar_cell_two_labels [cTask, cTaskSub, cTaskDue]
  refine ⟨?_, ?_⟩
  · have := h.2.1 0 (by decide)
    simpa using this
  · have := h.2.2.1 (by decide)
    simpa using this

/-! Helper lemmas on strings, used to relate JavaScript truthiness of
`due_date` to the `startsWith` test. -/

/-- Stepping a substring of the empty string goes nowhere. -/
theorem substring_nextn_empty (n : Nat) :
    Substring.nextn ⟨"", 0, 0⟩ n 0 = 0 := by
  induction n with
  | zero => rfl
  | succ i ih =>
    show Substring.nextn ⟨"", 0, 0⟩ i (Substring.next ⟨"", 0, 0⟩ 0) = 0
    have h : Substring.next ⟨"", 0, 0⟩ 0 = 0 := rfl
    rw [h, ih]

/-- Taking from the empty substring yields the empty substring. -/
theorem substring_take_empty (n : Nat) :
    Substring.take ⟨"", 0, 0⟩ n = ⟨"", 0, 0⟩ := by
  show (⟨"", 0, 0 + Substring.nextn ⟨"", 0, 0⟩ n 0⟩ : Substring) = ⟨"", 0, 0⟩
  rw [substring_nextn_empty]
  rfl

/-- A nonempty string has a positive UTF-8 byte size. -/
theorem utf8ByteSize_pos_of_ne_empty (p : String) (hp : p ≠ "") :
    0 < p.utf8ByteSize := by
  cases p with
  | mk data =>
    cases data with
    | nil => simp at hp
    | cons c cs =>
      show 0 < String.utf8ByteSize.go (c :: cs)
      show 0 < String.utf8ByteSize.go cs + c.utf8Size
      have := Char.utf8Size_pos c
      omega

/-- The empty string does not start with a nonempty pattern. -/
theorem empty_startsWith_eq_false (p : String) (hp : p ≠ "") :
    ("" : String).startsWith p = false := by
  show (Substring.take (String.toSubstring "") p.length == p.toSubstring) = false
  have h1 : String.toSubstring "" = ⟨"", 0, 0⟩ := rfl
  rw [h1, substring_take_empty]
  show Substring.beq ⟨"", 0, 0⟩ p.toSubstring = false
  unfold Substring.beq
  have hb : Substring.bsize ⟨"", 0, 0⟩ = 0 := rfl
  have hp2 : Substring.bsize p.toSubstring = p.utf8ByteSize := rfl
  rw [hb, hp2]
  have hpos := utf8ByteSize_pos_of_ne_empty p hp
  have h0 : (0 == p.utf8ByteSize) = false := by
    simp
    omega
  rw [h0, Bool.false_and]

/-- The ISO date string of a civil date is never empty (it contains the
two dashes of `YYYY-MM-DD`). -/
theorem isoDateString_ne_empty (d : CivilDate) : isoDateString d ≠ "" := by
  intro h
  have hlen : (isoDateString d).length = 0 := by rw [h]; rfl
  unfold isoDateString at hlen
  simp only [String.length_append] at hlen
  have hdash : ("-" : String).length = 1 := rfl
  omega

/-- C2: the calendar view is derived from task due-dates: a cell without
a date lists no task, and a task `t` is listed in the cell of date `d`
exactly when `t` is in the tasks list, has a `due_date`, and that
due-date string starts with `d`'s ISO `YYYY-MM-DD` string; in particular
a task without a due-date never appears in any cell. -/
theorem getTasksForDate_spec (tasks : List Task) (d : CivilDate) (t : Task) :
    getTasksForDate tasks none = [] ∧
    (t ∈ getTasksForDate tasks (some d) ↔
      t ∈ tasks ∧ ∃ s, t.due_date = some s ∧
        s.startsWith (isoDateString d) = true) := by
  constructor
  · rfl
  · simp only [getTasksForDate, List.mem_filter]
    constructor
    · rintro ⟨ht, hcond⟩
      cases hdue : t.due_date with
      | none => rw [hdue] at hcond; exact absurd hcond (by simp)
      | some s =>
        rw [hdue] at hcond
        have hcond' : (s != "" && s.startsWith (isoDateString d)) = true := hcond
        exact ⟨ht, s, rfl, (Bool.and_eq_true _ _ |>.mp hcond').2⟩
    · rintro ⟨ht, s, hdue, hsw⟩
      refine ⟨ht, ?_⟩
      rw [hdue]
      show (s != "" && s.startsWith (isoDateString d)) = true
      have hs : (s != "") = true := by
        rcases eq_or_ne s "" with he | he
        · subst he
          rw [empty_startsWith_eq_false _ (isoDateString_ne_empty d)] at hsw
          exact Bool.noConfusion hsw
        · simpa using he
      rw [hs, hsw, Bool.and_self]

/-- The euclidean remainder modulo 7, cast to `Nat`, is below 7. -/
theorem toNat_emod7_lt (a : Int) : (Int.emod a 7).toNat < 7 := by
  have h1 : 0 ≤ Int.emod a 7 := Int.emod_nonneg a (by norm_num)
  have h2 : Int.emod a 7 < 7 := Int.emod_lt_of_pos a (by norm_num)
  omega

/-- C3: for every viewed month the date grid consists of exactly
`startingDayOfWeek` leading null cells (the weekday index, 0–6 with
Sunday 0, of the first of the month) followed by one date cell per day in
ascending order from 1 to the month's last day; its length is
`startingDayOfWeek` plus the number of days in the month, and every
non-null cell lies in the viewed month. -/
theorem getDaysInMonth_grid (y : Int) (m : Nat) :
    (getDaysInMonth y m).length = jsGetDay y m 1 + daysInMonthOf y m ∧
    jsGetDay y m 1 < 7 ∧
    (∀ i : Nat, i < jsGetDay y m 1 → (getDaysInMonth y m)[i]? = some none) ∧
    (∀ k : Nat, k < daysInMonthOf y m →
      (getDaysInMonth y m)[jsGetDay y m 1 + k]? =
        some (some ⟨y, m, k + 1⟩)) ∧
    (∀ c : CivilDate, some c ∈ getDaysInMonth y m →
      c.year = y ∧ c.month = m ∧ 1 ≤ c.day ∧ c.day ≤ daysInMonthOf y m) := by
  refine ⟨?_, ?_, ?_, ?_, ?_⟩
  · simp [getDaysInMonth]
  · exact toNat_emod7_lt _
  · intro i hi
    unfold getDaysInMonth
    rw [List.getElem?_append_left (by simpa using hi)]
    simp [hi]
  · intro k hk
    unfold getDaysInMonth
    rw [List.getElem?_append_right (by simp)]
    simp only [List.length_replicate, Nat.add_sub_cancel_left, List.getElem?_map]
    rw [List.getElem?_range hk]
    rfl
  · intro c hc
    unfold getDaysInMonth at hc
    rw [List.mem_append] at hc
    cases hc with
    | inl h =>
      have := List.eq_of_mem_replicate h
      exact absurd this (by simp)
    | inr h =>
      rw [List.mem_map] at h
      obtain ⟨i, hi, he⟩ := h
      rw [List.mem_range] at hi
      have hc : c = ⟨y, m, i + 1⟩ := by
        injection he with he'
        exact he'.symm
      subst hc
      refine ⟨rfl, rfl, by simp, ?_⟩
      simp
      omega

/-- C3 witness: in June 2024 the first of the month is a Saturday, so the
grid has six leading null cells and June 1 sits at index 6. -/
theorem getDaysInMonth_grid_witness :
    (getDaysInMonth 2024 5)[0]? = some none ∧
    (getDaysInMonth 2024 5)[jsGetDay 2024 5 1 + 0]? =
      some (some ⟨2024, 5, 0 + 1⟩) := by
  have h := getDaysInMonth_grid 2024 5
  exact ⟨h.2.2.1 0 (by decide), h.2.2.2.1 0 (by decide)⟩

/-- The URL of `api.getDiaryEntries` always sits under the fixed
`/api/diary` endpoint: it is either the bare endpoint or the endpoint
followed by a query string. -/
theorem getDiaryEntriesUrl_endpoint (entryDate : Option String)
    (folderId : Option Int) :
    getDiaryEntriesUrl entryDate folderId = API_BASE_URL ++ "/api/diary" ∨
    ∃ q : String, getDiaryEntriesUrl entryDate folderId =
      API_BASE_URL ++ "/api/diary?" ++ q := by
  cases h : diaryQueryParams entryDate folderId with
  | nil => left; simp [getDiaryEntriesUrl, h]
  | cons p rest =>
    right
    exact ⟨String.intercalate "&" ((p :: rest).map fun q => q.1 ++ "=" ++ q.2),
      by simp [getDiaryEntriesUrl, h]⟩

/-- C7: every `api` client operation performs exactly one HTTP request to
its fixed endpoint under `http://localhost:8000` (`/health`, `/api/tasks`,
`/api/tasks/{id}`, `/api/folders`, `/api/diary`) and returns the response
body parsed as JSON unmodified (the result is the network oracle's answer
for that single request, with POST/PUT bodies passed through verbatim). -/
theorem api_operations_single_request (net : Request → Json)
    (folderId diaryFolderId : Option Int) (taskId : Int)
    (taskData updates folderData entryData : Json) (entryDate : Option String) :
    (∃ r : Request, healthCheck net = ([r], net r) ∧
      r.url = API_BASE_URL ++ "/health") ∧
    (∃ r : Request, getTasks folderId net = ([r], net r) ∧
      (r.url = API_BASE_URL ++ "/api/tasks" ∨
       ∃ i : Int, folderId = some i ∧
         r.url = API_BASE_URL ++ "/api/tasks?folder_id=" ++ toString i)) ∧
    (∃ r : Request, createTask taskData net = ([r], net r) ∧
      r.url = API_BASE_URL ++ "/api/tasks" ∧ r.body = some taskData) ∧
    (∃ r : Request, updateTask taskId updates net = ([r], net r) ∧
      r.url = API_BASE_URL ++ "/api/tasks/" ++ toString taskId ∧
      r.body = some updates) ∧
    (∃ r : Request, getFolders net = ([r], net r) ∧
      r.url = API_BASE_URL ++ "/api/folders") ∧
    (∃ r : Request, createFolder folderData net = ([r], net r) ∧
      r.url = API_BASE_URL ++ "/api/folders" ∧ r.body = some folderData) ∧
    (∃ r : Request, getDiaryEntries entryDate diaryFolderId net = ([r], net r) ∧
      (r.url = API_BASE_URL ++ "/api/diary" ∨
       ∃ q : String, r.url = API_BASE_URL ++ "/api/diary?" ++ q)) ∧
    (∃ r : Request, createDiaryEntry entryData net = ([r], net r) ∧
      r.url = API_BASE_URL ++ "/api/diary" ∧ r.body = some entryData) := by
  refine ⟨⟨healthCheckReq, rfl, rfl⟩, ?_,
    ⟨createTaskReq taskData, rfl, rfl, rfl⟩,
    ⟨updateTaskReq taskId updates, rfl, rfl, rfl⟩,
    ⟨getFoldersReq, rfl, rfl⟩,
    ⟨createFolderReq folderData, rfl, rfl, rfl⟩,
    ⟨getDiaryEntriesReq entryDate diaryFolderId, rfl,
      getDiaryEntriesUrl_endpoint entryDate diaryFolderId⟩,
    ⟨createDiaryEntryReq entryData, rfl, rfl, rfl⟩⟩
  refine ⟨getTasksReq folderId, rfl, ?_⟩
  cases folderId with
  | none => left; rfl
  | some i =>
    rcases eq_or_ne i 0 with h | h
    · left
      simp [getTasksReq, getTasksUrl, h]
    · right
      exact ⟨i, rfl, by simp [getTasksReq, getTasksUrl, h]⟩

/-- C4 counterexample: for the concrete selected folder whose id is 0,
`loadTasks` issues the unfiltered request: its URL is the bare
`/api/tasks` endpoint and not the URL carrying `folder_id=0`, contrary to
the claim's "for every selected folder". -/
theorem loadTasks_folder_zero_counterexample :
    (loadTasksRequest (some cFolder0)).url = API_BASE_URL ++ "/api/tasks" ∧
    (loadTasksRequest (some cFolder0)).url ≠
      API_BASE_URL ++ "/api/tasks?folder_id=" ++ toString cFolder0.id := by
  exact ⟨rfl, by decide⟩

/-- C4 (amended): when the selected folder's id is nonzero, `loadTasks`
issues a GET whose URL carries `folder_id` equal to that id; when no
folder is selected ("All"), and also when the selected folder's id is the
falsy number 0, the request is the unfiltered `/api/tasks` GET. -/
theorem loadTasks_request_folder_filter (f : FolderType) (hf : f.id ≠ 0) :
    loadTasksRequest (some f) =
      { method := Method.GET,
        url := API_BASE_URL ++ "/api/tasks?folder_id=" ++ toString f.id,
        body := none } ∧
    loadTasksRequest none =
      { method := Method.GET, url := API_BASE_URL ++ "/api/tasks",
        body := none } ∧
    (∀ f0 : FolderType, f0.id = 0 → loadTasksRequest (some f0) =
      { method := Method.GET, url := API_BASE_URL ++ "/api/tasks",
        body := none }) := by
  refine ⟨?_, rfl, ?_⟩
  · simp [loadTasksRequest, selectedFolderIdOrNull, getTasksReq, getTasksUrl, hf]
  · intro f0 h0
    simp [loadTasksRequest, selectedFolderIdOrNull, getTasksReq, getTasksUrl, h0]

/-- C4 witness: for the concrete folder with id 5 the issued request is
the filtered GET. -/
theorem loadTasks_request_folder_filter_witness :
    loadTasksRequest (some cFolder5) =
      { method := Method.GET,
        url := API_BASE_URL ++ "/api/tasks?folder_id=" ++ toString cFolder5.id,
        body := none } :=
  (loadTasks_request_folder_filter cFolder5 (by decide)).1

/-- C5 counterexample: for the concrete selected folder whose id is 0,
the diary-entry body carries `folder_id: null` rather than the selected
folder's id 0, contrary to the claim's "folder_id equal to the selected
folder's id". -/
theorem createDiaryEntry_folder_zero_counterexample :
    ((handleCreateDiaryEntryBody (some cFolder0) "2026-10-11"
        "dear diary").lookupField "folder_id") = some Json.null ∧
    Json.null ≠ Json.num cFolder0.id := by
  refine ⟨rfl, fun h => Json.noConfusion h⟩

/-- C5 (amended): every diary entry created through
`handleCreateDiaryEntry` is sent as a POST to `/api/diary` whose body has
`entry_date` equal to the current day's ISO date, an empty title, the
caller's content, no mood key (dropped by `JSON.stringify`), an empty
weather, and `folder_id` equal to the selected folder's id when that id
is nonzero, and `null` when no folder is selected or the selected
folder's id is the falsy number 0. -/
theorem handleCreateDiaryEntry_request_fields (sf : Option FolderType)
    (todayIso content : String) :
    handleCreateDiaryEntryRequest sf todayIso content =
      { method := Method.POST, url := API_BASE_URL ++ "/api/diary",
        body := some (Json.obj [
          ("entry_date", Json.str todayIso),
          ("title", Json.str ""),
          ("content", Json.str content),
          ("weather", Json.str ""),
          ("folder_id", jsonOfFolderId (selectedFolderIdOrNull sf))]) } ∧
    (sf = none → jsonOfFolderId (selectedFolderIdOrNull sf) = Json.null) ∧
    (∀ f : FolderType, sf = some f → f.id ≠ 0 →
      jsonOfFolderId (selectedFolderIdOrNull sf) = Json.num f.id) ∧
    (∀ f : FolderType, sf = some f → f.id = 0 →
      jsonOfFolderId (selectedFolderIdOrNull sf) = Json.null) := by
  refine ⟨rfl, ?_, ?_, ?_⟩
  · intro h; subst h; rfl
  · intro f hf h0
    subst hf
    simp [selectedFolderIdOrNull, jsonOfFolderId, h0]
  · intro f hf h0
    subst hf
    simp [selectedFolderIdOrNull, jsonOfFolderId, h0]

/-- C5 witness: for the concrete folder with id 5 the body's folder_id is
the number 5. -/
theorem handleCreateDiaryEntry_request_fields_witness :
    jsonOfFolderId (selectedFolderIdOrNull (some cFolder5)) =
      Json.num cFolder5.id :=
  (handleCreateDiaryEntry_request_fields (some cFolder5) "2026-10-11"
    "dear diary").2.2.1 cFolder5 rfl (by decide)

/-- C1 counterexample: on a fetch error, `toggleTaskStatus` does more
than log: its catch block rewrites the tasks list (flipping the clicked
task's status locally), so component state other than the loading flag
changes.  Evaluated at a concrete one-task state. -/
theorem toggleTaskStatus_error_mutates_tasks :
    (toggleTaskStatusRun cState cTask (Except.error ())).tasks ≠ cState.tasks ∧
    (toggleTaskStatusRun cState cTask (Except.error ())).loading =
      cState.loading := by
  exact ⟨by decide, rfl⟩

/-- C1 (amended): a failed fetch in `loadTasks`, `loadFolders`,
`loadDiaryEntries`, `handleCreateTask`, `handleCreateFolder` and
`handleCreateDiaryEntry` produces only error logging: apart from clearing
the loading flag in the loaders' `finally` blocks, the state is
unchanged.  `toggleTaskStatus` is the exception: on error its catch block
additionally applies the status flip locally to the tasks list, leaving
every other field unchanged. -/
theorem fetch_error_state_effects (s : AppState) (task : Task) :
    loadTasksRun s (Except.error ()) = { s with loading := false } ∧
    loadFoldersRun s (Except.error ()) = s ∧
    loadDiaryEntriesRun s (Except.error ()) = { s with loading := false } ∧
    handleCreateTaskRun s (Except.error ()) = s ∧
    handleCreateFolderRun s (Except.error ()) = s ∧
    handleCreateDiaryEntryRun s (Except.error ()) = s ∧
    (toggleTaskStatusRun s task (Except.error ())).tasks =
      (s.tasks.map fun t =>
        if t.id == task.id then { t with status := flipStatus task.status }
        else t) ∧
    (toggleTaskStatusRun s task (Except.error ())).folders = s.folders ∧
    (toggleTaskStatusRun s task (Except.error ())).diaryEntries =
      s.diaryEntries ∧
    (toggleTaskStatusRun s task (Except.error ())).loading = s.loading ∧
    (toggleTaskStatusRun s task (Except.error ())).showNewTaskModal =
      s.showNewTaskModal ∧
    (toggleTaskStatusRun s task (Except.error ())).showNewFolderModal =
      s.showNewFolderModal ∧
    (toggleTaskStatusRun s task (Except.error ())).newTask = s.newTask ∧
    (toggleTaskStatusRun s task (Except.error ())).newFolder = s.newFolder ∧
    (toggleTaskStatusRun s task (Except.error ())).expandedTasks =
      s.expandedTasks :=
  ⟨rfl, rfl, rfl, rfl, rfl, rfl, rfl, rfl, rfl, rfl, rfl, rfl, rfl, rfl, rfl⟩

end TodoApp
